import Mathlib

/-!
Verification of the Paired-Comparison & Correlation Analysis Engine of the
repository `mees-trabalho-5` (GraphQL vs REST experiment analysis).

The engine lives in `src/experiment_analyzer.py`, `src/generate_experiment_report.py`
(a near-verbatim duplicate of the analysis logic) and `src/generate_report.py`
(the correlation study).  Numeric values are embedded as rationals (the Python
code computes with floats; all comparisons in the dispatch logic are exact
threshold comparisons, faithfully represented over ℚ), except the standardized
effect size, whose defining formula takes a square root and is embedded over ℝ.

External SciPy routines (`shapiro`, `ttest_rel`, `wilcoxon`, `pearsonr`,
`spearmanr`) are not code of this repository; they are embedded as oracle
parameters.  An oracle returning `none` models the routine raising an
exception; `some (statistic, pvalue)` models a normal return.  The random
subsample drawn by `pandas.DataFrame.sample` is likewise embedded as an
explicit sampler parameter: the sampler is the seedable source of randomness,
and fixing it corresponds to fixing the random seed.
-/

/-- Arithmetic mean of a list of rationals (`np.mean`); only ever consulted on
nonempty lists by the embedded code paths. -/
def listMean (l : List ℚ) : ℚ :=
  l.sum / l.length

/-- Population variance (`np.var` with ddof = 0): mean of squared deviations
from the mean. -/
def popVar (l : List ℚ) : ℚ :=
  listMean (l.map (fun x => (x - listMean l) ^ 2))

/-- Population standard deviation (`np.std` with ddof = 0): square root of the
population variance.  Real-valued since the square root of a rational is
irrational in general. -/
noncomputable def popStd (l : List ℚ) : ℝ :=
  Real.sqrt (popVar l)

/-- Effect Size Calculator, from `src/experiment_analyzer.py` lines 170-172
(duplicated at `src/generate_experiment_report.py` lines 119-121):

  mean_diff = np.mean(paired_differences)
  std_diff = np.std(paired_differences)
  cohens_d = mean_diff / std_diff if std_diff > 0 else 0
-/
noncomputable def cohensD (diffs : List ℚ) : ℝ :=
  if popStd diffs > 0 then (listMean diffs : ℝ) / popStd diffs else 0

/-- Normality Classifier, from `ExperimentAnalyzer.test_normality`
(`src/experiment_analyzer.py` lines 46-64, duplicated at
`src/generate_experiment_report.py` lines 47-59):

  if len(data) < 3: return False, 1.0
  sample = data.sample(min(5000, len(data))) if len(data) > 5000 else data
  try:
      stat, p_value = shapiro(sample)
      return p_value > 0.05, p_value
  except:
      return False, 0.0

`shapiroOracle` embeds `scipy.stats.shapiro` (`none` = the routine raises, and
the bare `except` converts that to `(False, 0.0)`); `sampler` embeds the random
draw `data.sample(5000)` performed when the sample exceeds 5000 values. -/
def testNormality (shapiroOracle : List ℚ → Option (ℚ × ℚ))
    (sampler : List ℚ → List ℚ) (data : List ℚ) : Bool × ℚ :=
  if data.length < 3 then (false, 1)
  else
    let sample := if data.length > 5000 then sampler data else data
    match shapiroOracle sample with
    | some (_, p) => (decide (p > 0.05), p)
    | none => (false, 0)

/-- C6: for every sample with fewer than 3 values, the Normality Classifier
returns is_normal = false and p_value = 1.0, without invoking the
goodness-of-fit test (the result is the same for every shapiro oracle and
every sampler). -/
theorem testNormality_small_sample (shapiroOracle : List ℚ → Option (ℚ × ℚ))
    (sampler : List ℚ → List ℚ) (data : List ℚ) (h : data.length < 3) :
    testNormality shapiroOracle sampler data = (false, 1) := by
  simp [testNormality, h]

/-- Witness for C6 at the concrete sample [1, 2]. -/
theorem testNormality_small_sample_witness :
    testNormality (fun _ => some (1, 0)) id [1, 2] = (false, 1) :=
  testNormality_small_sample (fun _ => some (1, 0)) id [1, 2] (by decide)

/-- C7: for every sample of at least 3 values the Normality Classifier decides
is_normal = (p_value > 0.05) from the p-value returned by the goodness-of-fit
test (applied to the subsample when the sample exceeds 5000 values), and when
the underlying routine fails it returns (false, 0.0) instead of propagating
the error. -/
theorem testNormality_decision (shapiroOracle : List ℚ → Option (ℚ × ℚ))
    (sampler : List ℚ → List ℚ) (data : List ℚ) (h : 3 ≤ data.length) :
    (∀ st p, shapiroOracle (if data.length > 5000 then sampler data else data) = some (st, p) →
      ((testNormality shapiroOracle sampler data).1 = true ↔ (0.05 : ℚ) < p) ∧
        (testNormality shapiroOracle sampler data).2 = p) ∧
    (shapiroOracle (if data.length > 5000 then sampler data else data) = none →
      testNormality shapiroOracle sampler data = (false, 0)) := by
  have hlt : ¬ data.length < 3 := by omega
  constructor
  · intro st p hp
    simp [testNormality, hlt, hp, gt_iff_lt]
  · intro hp
    simp [testNormality, hlt, hp]

/-- Witness for C7 at the sample [1, 2, 3] with an oracle reporting p = 1/2,
and the failure branch with an oracle that raises. -/
theorem testNormality_decision_witness :
    (((testNormality (fun _ => some (2, 1/2)) id [1, 2, 3]).1 = true ↔ (0.05 : ℚ) < 1/2) ∧
      (testNormality (fun _ => some (2, 1/2)) id [1, 2, 3]).2 = 1/2) ∧
    testNormality (fun _ => none) id [1, 2, 3] = (false, 0) :=
  ⟨(testNormality_decision (fun _ => some (2, 1/2)) id [1, 2, 3] (by decide)).1 2 (1/2) rfl,
   (testNormality_decision (fun _ => none) id [1, 2, 3] (by decide)).2 rfl⟩

/-- C10: in every branch of the Normality Classifier, is_normal = true implies
p_value > 0.05; the converse fails, since the fewer-than-3 branch returns
is_normal = false together with p_value = 1.0 > 0.05. -/
theorem testNormality_true_implies_significant :
    (∀ (shapiroOracle : List ℚ → Option (ℚ × ℚ)) (sampler : List ℚ → List ℚ)
      (data : List ℚ), (testNormality shapiroOracle sampler data).1 = true →
        (0.05 : ℚ) < (testNormality shapiroOracle sampler data).2) ∧
    (∃ (shapiroOracle : List ℚ → Option (ℚ × ℚ)) (sampler : List ℚ → List ℚ)
      (data : List ℚ), (0.05 : ℚ) < (testNormality shapiroOracle sampler data).2 ∧
        (testNormality shapiroOracle sampler data).1 = false) := by
  constructor
  · intro shapiroOracle sampler data h
    by_cases hlen : data.length < 3
    · simp [testNormality, hlen] at h
    · rcases hsh : shapiroOracle (if data.length > 5000 then sampler data else data) with _ | ⟨st, p⟩
      · simp [testNormality, hlen, hsh] at h
      · simp [testNormality, hlen, hsh, gt_iff_lt] at h ⊢
        exact h
  · exact ⟨fun _ => some (1, 1), id, [1, 2], by norm_num [testNormality]⟩

/-- Witness for C10 at the sample [1, 2, 3] with an oracle reporting p = 1. -/
theorem testNormality_true_implies_significant_witness :
    (0.05 : ℚ) < (testNormality (fun _ => some (1, 1)) id [1, 2, 3]).2 :=
  testNormality_true_implies_significant.1 (fun _ => some (1, 1)) id [1, 2, 3]
    (by norm_num [testNormality])

/-- C8: the Effect Size Calculator returns mean(differences) divided by the
population standard deviation of the differences, and returns exactly 0 when
that standard deviation is 0; the standard deviation is 0 exactly when the
population variance is 0, and the result is a total real value (the embedding
has no NaN or Infinity; the division-by-zero case is guarded). -/
theorem cohensD_spec (d : List ℚ) :
    (popStd d = 0 → cohensD d = 0) ∧
    (popStd d ≠ 0 → cohensD d = (listMean d : ℝ) / popStd d) ∧
    (popStd d = 0 ↔ popVar d = 0) := by
  have hnn : 0 ≤ popStd d := Real.sqrt_nonneg _
  have hvar : 0 ≤ (popVar d : ℝ) := by
    have : 0 ≤ popVar d := by
      have : ∀ x ∈ d.map (fun x => (x - listMean d) ^ 2), 0 ≤ x := by
        intro x hx
        rcases List.mem_map.1 hx with ⟨y, _, rfl⟩
        positivity
      have hsum : 0 ≤ (d.map (fun x => (x - listMean d) ^ 2)).sum := List.sum_nonneg this
      unfold popVar listMean
      positivity
    exact_mod_cast this
  refine ⟨fun h => ?_, fun h => ?_, ?_⟩
  · simp [cohensD, h]
  · have : 0 < popStd d := lt_of_le_of_ne hnn (Ne.symm h)
    simp [cohensD, this]
  · constructor
    · intro h
      have := Real.sqrt_eq_zero hvar |>.1 h
      exact_mod_cast this
    · intro h
      simp [popStd, h]

/-- Witness for C8 at the zero-variance difference list [2, 2, 2]. -/
theorem cohensD_spec_witness : cohensD [2, 2, 2] = 0 :=
  (cohensD_spec [2, 2, 2]).1
    ((cohensD_spec [2, 2, 2]).2.2.2 (by norm_num [popVar, listMean]))

/-- One successful measurement row of the experiment CSV, restricted to the
fields `analyze_rq1` consumes: repository owner, repository name, query type,
API type and the numeric outcome (`response_time_ms` for RQ1; the RQ2 logic at
lines 202-332 is identical with `response_size_bytes`).  `load_data` has
already filtered on the success flag. -/
structure Row where
  owner : String
  name : String
  qtype : String
  api : String
  value : ℚ
deriving DecidableEq

/-- The pandas groupby key (repository_owner, repository_name, query_type). -/
def rowKey (r : Row) : String × String × String :=
  (r.owner, r.name, r.qtype)

/-- The distinct groupby keys, in order of first occurrence.  Pandas sorts the
keys; none of the verified properties depend on the order of the groups. -/
def groupKeys (df : List Row) : List (String × String × String) :=
  df.foldl (fun acc r => if rowKey r ∈ acc then acc else acc ++ [rowKey r]) []

/-- The outcome values of one group restricted to one api_type, mirroring
`group[group["api_type"] == api]["response_time_ms"].values`. -/
def valuesFor (df : List Row) (k : String × String × String) (api : String) : List ℚ :=
  (df.filter (fun r => rowKey r = k ∧ r.api = api)).map (·.value)

/-- One PairedGroup: the per-subject summary row appended by `analyze_rq1`
(`src/experiment_analyzer.py` lines 84-97) whenever both conditions have at
least one measurement in the group. -/
structure GroupSummary where
  graphqlMean : ℚ
  restMean : ℚ
  difference : ℚ

/-- The Aggregator: one GroupSummary per groupby key having measurements on
both sides, with arithmetic-mean summary values and the signed difference
graphql_mean - rest_mean. -/
def groupResults (df : List Row) : List GroupSummary :=
  (groupKeys df).filterMap (fun k =>
    let g := valuesFor df k "graphql"
    let r := valuesFor df k "rest"
    if 0 < g.length ∧ 0 < r.length then
      some ⟨listMean g, listMean r, listMean g - listMean r⟩
    else none)

/-- The pooled, unpaired outcome values of one condition over the whole
dataset: `self.df[self.df["api_type"] == api]["response_time_ms"].values`. -/
def pooledValues (df : List Row) (api : String) : List ℚ :=
  (df.filter (fun r => r.api = api)).map (·.value)

/-- The per-subject graphql summary means fed to the statistical test. -/
def graphqlMeans (df : List Row) : List ℚ :=
  (groupResults df).map (·.graphqlMean)

/-- The per-subject rest summary means fed to the statistical test. -/
def restMeans (df : List Row) : List ℚ :=
  (groupResults df).map (·.restMean)

/-- The paired per-subject mean differences. -/
def pairedDifferences (df : List Row) : List ℚ :=
  (groupResults df).map (·.difference)

/-- The ComparisonResult dictionary returned by `analyze_rq1` (minus the
descriptive-statistics sub-dictionaries, which no verified claim concerns). -/
structure RQResult where
  test_name : String
  p_value : ℚ
  cohens_d : ℝ
  conclusion : String
  mean_difference : ℚ
  graphql_faster : Bool

/-- Test Selector & Executor, from `ExperimentAnalyzer.analyze_rq1`
(`src/experiment_analyzer.py` lines 132-200, duplicated at
`src/generate_experiment_report.py` lines 99-147 and, for RQ2, lines 268-332):

  graphql_normal, _ = self.test_normality(all_graphql_times)
  rest_normal, _ = self.test_normality(all_rest_times)
  paired_differences = [r["difference"] for r in results]
  if len(paired_differences) > 1:
      if graphql_normal and rest_normal:
          t_stat, p_value = ttest_rel([r["graphql_mean"] ...], [r["rest_mean"] ...])
          test_name = "Teste t pareado"
      else:
          t_stat, p_value = wilcoxon([...], [...], alternative="two-sided")
          test_name = "Teste de Wilcoxon"
      mean_diff = np.mean(paired_differences)
      std_diff = np.std(paired_differences)
      cohens_d = mean_diff / std_diff if std_diff > 0 else 0
      conclusion = ... (sign of mean_diff when p_value < 0.05)
  else:
      p_value = 1.0; conclusion = "Dados insuficientes ..."; cohens_d = 0.0
  return {...}

`ttestRel` and `wilcoxonTest` embed the SciPy routines; a `none` result models
the routine raising, and since `analyze_rq1` wraps neither call in a
try/except, a `none` outcome propagates (the whole analysis returns `none`). -/
noncomputable def analyzeRq1 (shapiroOracle : List ℚ → Option (ℚ × ℚ))
    (sampler : List ℚ → List ℚ)
    (ttestRel wilcoxonTest : List ℚ → List ℚ → Option (ℚ × ℚ))
    (df : List Row) : Option RQResult :=
  let graphqlNormal := (testNormality shapiroOracle sampler (pooledValues df "graphql")).1
  let restNormal := (testNormality shapiroOracle sampler (pooledValues df "rest")).1
  let pairedDiffs := pairedDifferences df
  if pairedDiffs.length > 1 then
    let outcome := if graphqlNormal && restNormal then
        ttestRel (graphqlMeans df) (restMeans df)
      else
        wilcoxonTest (graphqlMeans df) (restMeans df)
    match outcome with
    | none => none
    | some (_stat, p) =>
      let meanDiff := listMean pairedDiffs
      some {
        test_name := if graphqlNormal && restNormal then "Teste t pareado"
          else "Teste de Wilcoxon"
        p_value := p
        cohens_d := cohensD pairedDiffs
        conclusion := if p < 0.05 then
            (if meanDiff < 0 then "GraphQL é significativamente mais rápido que REST"
             else "REST é significativamente mais rápido que GraphQL")
          else "Não há diferença significativa entre GraphQL e REST"
        mean_difference := meanDiff
        graphql_faster := decide (meanDiff < 0) }
  else
    some {
      test_name := "N/A"
      p_value := 1
      cohens_d := 0
      conclusion := "Dados insuficientes para análise estatística"
      mean_difference := if pairedDiffs.isEmpty then 0 else listMean pairedDiffs
      graphql_faster := if pairedDiffs.isEmpty then false
        else decide (listMean pairedDiffs < 0) }

/-- The ten qualitative labels of the correlation classification table. -/
inductive CorrLabel where
  | detectable
  | inexistent
  | weak
  | weakUnreliable
  | moderate
  | moderateUnreliable
  | strong
  | strongUnreliable
  | veryStrong
  | veryStrongUnreliable
deriving DecidableEq, Fintype

/-- The Portuguese interpretation string the source emits for each label of
the classification table (`src/generate_report.py` lines 241-267). -/
def labelText : CorrLabel → String
  | .detectable => "Correlação detectável"
  | .inexistent => "Correlação inexistente"
  | .weak => "Correlação fraca"
  | .weakUnreliable => "Correlação fraca (não confiável)"
  | .moderate => "Correlação moderada"
  | .moderateUnreliable => "Correlação moderada (não confiável)"
  | .strong => "Correlação forte"
  | .strongUnreliable => "Correlação forte (não confiável)"
  | .veryStrong => "Correlação muito forte"
  | .veryStrongUnreliable => "Correlação muito forte (não confiável)"

/-- Modelled from the spec: the classification table of section 4.5, written
as honest half-open magnitude bands over the linear coefficient crossed with
the significance gate p < 0.05.  This is the spec-side definition the source
classifier is compared against. -/
def specTableLabel (r p : ℚ) : CorrLabel :=
  if |r| < 0.1 then
    (if p < 0.05 then .detectable else .inexistent)
  else if 0.1 ≤ |r| ∧ |r| < 0.3 then
    (if p < 0.05 then .weak else .weakUnreliable)
  else if 0.3 ≤ |r| ∧ |r| < 0.5 then
    (if p < 0.05 then .moderate else .moderateUnreliable)
  else if 0.5 ≤ |r| ∧ |r| < 0.7 then
    (if p < 0.05 then .strong else .strongUnreliable)
  else
    (if p < 0.05 then .veryStrong else .veryStrongUnreliable)

/-- Correlation Classifier interpretation, from
`ReportGenerator.format_correlation_table` (`src/generate_report.py` lines
231-268).  Each table row extracts pearson_r, pearson_p, spearman_r and
spearman_p; the spearman values are formatted into the row but never consulted
by the interpretation:

  magnitude = abs(pearson_r)
  is_significant = pearson_p < 0.05
  if magnitude < 0.1: ... elif magnitude < 0.3: ... elif magnitude < 0.5: ...
  elif magnitude < 0.7: ... else: ...
-/
def correlationInterpretation (pearsonR pearsonP spearmanR spearmanP : ℚ) : String :=
  let magnitude := |pearsonR|
  let isSignificant := decide (pearsonP < 0.05)
  if magnitude < 0.1 then
    (if isSignificant then "Correlação detectável" else "Correlação inexistente")
  else if magnitude < 0.3 then
    (if isSignificant then "Correlação fraca" else "Correlação fraca (não confiável)")
  else if magnitude < 0.5 then
    (if isSignificant then "Correlação moderada" else "Correlação moderada (não confiável)")
  else if magnitude < 0.7 then
    (if isSignificant then "Correlação forte" else "Correlação forte (não confiável)")
  else
    (if isSignificant then "Correlação muito forte" else "Correlação muito forte (não confiável)")

/-- Correlation Classifier numeric gate, from
`ReportGenerator.calculate_correlations` (`src/generate_report.py` lines
187-209), for one quality metric:

  if quality_metric in data.columns and data[quality_metric].notna().sum() > 10:
      pearson_corr, pearson_p = pearsonr(data[process_metric], data[quality_metric])
      spearman_corr, spearman_p = spearmanr(data[process_metric], data[quality_metric])
      ... those four values ...
  else:
      pearson = {correlation: 0, p_value: 1}; spearman = {correlation: 0, p_value: 1}

The quality column is a list of optional values (`none` = missing/NaN) paired
with a flag for column presence; `notna().sum()` is the count of present
values.  The SciPy coefficients are oracle parameters. -/
def calculateCorrelations (pearsonOracle spearmanOracle : List ℚ → List (Option ℚ) → ℚ × ℚ)
    (processCol : List ℚ) (qualityPresent : Bool) (qualityCol : List (Option ℚ)) :
    (ℚ × ℚ) × (ℚ × ℚ) :=
  if qualityPresent && decide (10 < (qualityCol.filterMap id).length) then
    (pearsonOracle processCol qualityCol, spearmanOracle processCol qualityCol)
  else
    ((0, 1), (0, 1))

/-- C5: for every correlation input with at most 10 valid (non-missing)
values, the Correlation Classifier returns correlation 0 and p-value 1 for
both the Pearson and the Spearman coefficient, whatever the coefficient
routines would have computed. -/
theorem calculateCorrelations_insufficient
    (pearsonOracle spearmanOracle : List ℚ → List (Option ℚ) → ℚ × ℚ)
    (processCol : List ℚ) (qualityPresent : Bool) (qualityCol : List (Option ℚ))
    (h : (qualityCol.filterMap id).length ≤ 10) :
    calculateCorrelations pearsonOracle spearmanOracle processCol qualityPresent qualityCol =
      ((0, 1), (0, 1)) := by
  simp [calculateCorrelations, Nat.not_lt.2 h]

/-- Witness for C5: five valid pairs, with coefficient oracles that would
report a strong nonzero correlation. -/
theorem calculateCorrelations_insufficient_witness :
    calculateCorrelations (fun _ _ => (9/10, 1/1000)) (fun _ _ => (8/10, 1/1000))
      [1, 2, 3, 4, 5] true [some 1, some 2, some 3, some 4, some 5] = ((0, 1), (0, 1)) :=
  calculateCorrelations_insufficient (fun _ _ => (9/10, 1/1000)) (fun _ _ => (8/10, 1/1000))
    [1, 2, 3, 4, 5] true [some 1, some 2, some 3, some 4, some 5] (by decide)

/-- The ten interpretation strings are pairwise distinct, so the label a row
receives is unique. -/
theorem labelText_injective : ∀ a b : CorrLabel, labelText a = labelText b → a = b := by
  decide

/-- C2: the Correlation Classifier assigns every (r, p) pair exactly one
qualitative label, equal to the spec table lookup keyed on the magnitude bands
of the Pearson coefficient at 0.1, 0.3, 0.5, 0.7 and on whether the Pearson
p-value is below 0.05; the result is independent of the Spearman values
reported alongside. -/
theorem correlationInterpretation_matches_table (pearsonR pearsonP spearmanR spearmanP : ℚ) :
    correlationInterpretation pearsonR pearsonP spearmanR spearmanP =
      labelText (specTableLabel pearsonR pearsonP) ∧
    (∃! L : CorrLabel,
      correlationInterpretation pearsonR pearsonP spearmanR spearmanP = labelText L) ∧
    (∀ sR sP : ℚ, correlationInterpretation pearsonR pearsonP sR sP =
      correlationInterpretation pearsonR pearsonP spearmanR spearmanP) := by
  have hmain : correlationInterpretation pearsonR pearsonP spearmanR spearmanP =
      labelText (specTableLabel pearsonR pearsonP) := by
    unfold correlationInterpretation specTableLabel
    simp only [decide_eq_true_eq]
    split_ifs <;> simp_all [labelText]
  refine ⟨hmain, ⟨specTableLabel pearsonR pearsonP, hmain, ?_⟩, fun sR sP => rfl⟩
  intro L hL
  exact labelText_injective L (specTableLabel pearsonR pearsonP) (hL.symm.trans hmain)

/-- C1: with more than one paired group, the Test Selector runs the paired
t-test on the per-subject mean pairs exactly when both pooled per-condition
samples are classified normal, and otherwise runs the Wilcoxon signed-rank
test on the same per-subject mean pairs; the driving normality verdicts are
those of the pooled, unpaired samples (`pooledValues`), not of the paired
means being tested. -/
theorem analyzeRq1_test_selection (shapiroOracle : List ℚ → Option (ℚ × ℚ))
    (sampler : List ℚ → List ℚ) (ttestRel wilcoxonTest : List ℚ → List ℚ → Option (ℚ × ℚ))
    (df : List Row) (st p : ℚ) (h : 1 < (pairedDifferences df).length) :
    (((testNormality shapiroOracle sampler (pooledValues df "graphql")).1 &&
        (testNormality shapiroOracle sampler (pooledValues df "rest")).1) = true →
      ttestRel (graphqlMeans df) (restMeans df) = some (st, p) →
      ∃ r, analyzeRq1 shapiroOracle sampler ttestRel wilcoxonTest df = some r ∧
        r.test_name = "Teste t pareado" ∧ r.p_value = p) ∧
    (((testNormality shapiroOracle sampler (pooledValues df "graphql")).1 &&
        (testNormality shapiroOracle sampler (pooledValues df "rest")).1) = false →
      wilcoxonTest (graphqlMeans df) (restMeans df) = some (st, p) →
      ∃ r, analyzeRq1 shapiroOracle sampler ttestRel wilcoxonTest df = some r ∧
        r.test_name = "Teste de Wilcoxon" ∧ r.p_value = p) := by
  constructor
  · intro hn ho
    unfold analyzeRq1
    simp only [gt_iff_lt, h, if_true, ite_true, hn, ho]
    exact ⟨_, rfl, rfl, rfl⟩
  · intro hn ho
    unfold analyzeRq1
    simp only [gt_iff_lt, h, if_true, ite_true, hn, Bool.false_eq_true, if_false, ite_false, ho]
    exact ⟨_, rfl, rfl, rfl⟩

/-- Witness for C1: a three-group dataset whose pooled samples an oracle calls
normal (p = 1) takes the paired t-test branch, and a two-group dataset whose
pooled samples are too small to be classified normal takes the Wilcoxon
branch. -/
theorem analyzeRq1_test_selection_witness :
    (∃ r, analyzeRq1 (fun _ => some (1, 1)) id (fun _ _ => some (2, 1/100)) (fun _ _ => none)
        [⟨"o", "r1", "simple", "graphql", 10⟩, ⟨"o", "r1", "simple", "rest", 20⟩,
         ⟨"o", "r2", "simple", "graphql", 12⟩, ⟨"o", "r2", "simple", "rest", 22⟩,
         ⟨"o", "r3", "simple", "graphql", 14⟩, ⟨"o", "r3", "simple", "rest", 24⟩] = some r ∧
      r.test_name = "Teste t pareado" ∧ r.p_value = 1/100) ∧
    (∃ r, analyzeRq1 (fun _ => some (1, 1)) id (fun _ _ => none) (fun _ _ => some (3, 1/2))
        [⟨"o", "r1", "simple", "graphql", 10⟩, ⟨"o", "r1", "simple", "rest", 20⟩,
         ⟨"o", "r2", "simple", "graphql", 12⟩, ⟨"o", "r2", "simple", "rest", 22⟩] = some r ∧
      r.test_name = "Teste de Wilcoxon" ∧ r.p_value = 1/2) :=
  ⟨(analyzeRq1_test_selection (fun _ => some (1, 1)) id (fun _ _ => some (2, 1/100))
      (fun _ _ => none)
      [⟨"o", "r1", "simple", "graphql", 10⟩, ⟨"o", "r1", "simple", "rest", 20⟩,
       ⟨"o", "r2", "simple", "graphql", 12⟩, ⟨"o", "r2", "simple", "rest", 22⟩,
       ⟨"o", "r3", "simple", "graphql", 14⟩, ⟨"o", "r3", "simple", "rest", 24⟩]
      2 (1/100) (by decide)).1 (by norm_num [testNormality, pooledValues] <;> decide) rfl,
   (analyzeRq1_test_selection (fun _ => some (1, 1)) id (fun _ _ => none)
      (fun _ _ => some (3, 1/2))
      [⟨"o", "r1", "simple", "graphql", 10⟩, ⟨"o", "r1", "simple", "rest", 20⟩,
       ⟨"o", "r2", "simple", "graphql", 12⟩, ⟨"o", "r2", "simple", "rest", 22⟩]
      3 (1/2) (by decide)).2 (by decide) rfl⟩

/-- C4: with at most one paired group, no statistical test is executed (the
result does not depend on the test oracles) and the result carries
p_value = 1.0, effect size 0 and the insufficient-data conclusion, whatever
the measurement values are. -/
theorem analyzeRq1_insufficient_data (shapiroOracle : List ℚ → Option (ℚ × ℚ))
    (sampler : List ℚ → List ℚ) (ttestRel wilcoxonTest : List ℚ → List ℚ → Option (ℚ × ℚ))
    (df : List Row) (h : (pairedDifferences df).length ≤ 1) :
    (∃ r, analyzeRq1 shapiroOracle sampler ttestRel wilcoxonTest df = some r ∧
      r.test_name = "N/A" ∧ r.p_value = 1 ∧ r.cohens_d = 0 ∧
      r.conclusion = "Dados insuficientes para análise estatística") ∧
    (∀ ttestRel2 wilcoxonTest2 : List ℚ → List ℚ → Option (ℚ × ℚ),
      analyzeRq1 shapiroOracle sampler ttestRel2 wilcoxonTest2 df =
        analyzeRq1 shapiroOracle sampler ttestRel wilcoxonTest df) := by
  have hlt : ¬ 1 < (pairedDifferences df).length := by omega
  constructor
  · unfold analyzeRq1
    simp only [gt_iff_lt, hlt, if_false, ite_false]
    exact ⟨_, rfl, rfl, rfl, rfl, rfl⟩
  · intro ttestRel2 wilcoxonTest2
    unfold analyzeRq1
    simp only [gt_iff_lt, hlt, if_false, ite_false]

/-- Witness for C4 at a dataset with exactly one paired group. -/
theorem analyzeRq1_insufficient_data_witness :
    (∃ r, analyzeRq1 (fun _ => some (1, 1)) id (fun _ _ => some (2, 1/100))
        (fun _ _ => some (3, 1/2))
        [⟨"o", "r1", "simple", "graphql", 10⟩, ⟨"o", "r1", "simple", "rest", 20⟩] = some r ∧
      r.test_name = "N/A" ∧ r.p_value = 1 ∧ r.cohens_d = 0 ∧
      r.conclusion = "Dados insuficientes para análise estatística") ∧
    (∀ ttestRel2 wilcoxonTest2 : List ℚ → List ℚ → Option (ℚ × ℚ),
      analyzeRq1 (fun _ => some (1, 1)) id ttestRel2 wilcoxonTest2
        [⟨"o", "r1", "simple", "graphql", 10⟩, ⟨"o", "r1", "simple", "rest", 20⟩] =
      analyzeRq1 (fun _ => some (1, 1)) id (fun _ _ => some (2, 1/100))
        (fun _ _ => some (3, 1/2))
        [⟨"o", "r1", "simple", "graphql", 10⟩, ⟨"o", "r1", "simple", "rest", 20⟩]) :=
  analyzeRq1_insufficient_data (fun _ => some (1, 1)) id (fun _ _ => some (2, 1/100))
    (fun _ _ => some (3, 1/2))
    [⟨"o", "r1", "simple", "graphql", 10⟩, ⟨"o", "r1", "simple", "rest", 20⟩] (by decide)

/-- C3, settled as a code bug: on the degenerate paired input of Scenario B
(three paired groups, every measurement equal to 5, so the paired values are
A = [5, 5, 5] and B = [5, 5, 5]), the rank-test degeneracy is NOT absorbed.
The pooled samples are constant, so the Shapiro oracle fails (modelled as
`none`, absorbed by test_normality into not-normal) and the Wilcoxon branch is
taken; `scipy.stats.wilcoxon` raises ValueError when every difference x - y is
zero, modelled as the `none` oracle, and `analyze_rq1` wraps the call in no
try/except, so the error propagates out of the analysis (result `none`)
instead of being reported as insufficient evidence with p_value = 1.0. -/
theorem analyzeRq1_rank_degeneracy_propagates :
    analyzeRq1 (fun _ => none) id (fun _ _ => some (0, 1)) (fun _ _ => none)
      [⟨"o", "r1", "simple", "graphql", 5⟩, ⟨"o", "r1", "simple", "rest", 5⟩,
       ⟨"o", "r2", "simple", "graphql", 5⟩, ⟨"o", "r2", "simple", "rest", 5⟩,
       ⟨"o", "r3", "simple", "graphql", 5⟩, ⟨"o", "r3", "simple", "rest", 5⟩] = none := rfl

/-- The Normality Classifier consults the random sampler only for its draw on
samples exceeding 5000 values. -/
theorem testNormality_sampler_agree (shapiroOracle : List ℚ → Option (ℚ × ℚ))
    (s1 s2 : List ℚ → List ℚ) (h : ∀ l : List ℚ, 5000 < l.length → s1 l = s2 l)
    (data : List ℚ) :
    testNormality shapiroOracle s1 data = testNormality shapiroOracle s2 data := by
  unfold testNormality
  by_cases hlen : data.length < 3
  · simp [hlen]
  · by_cases hbig : data.length > 5000
    · simp [hlen, hbig, h data hbig]
    · simp [hlen, hbig]

/-- C9: the analysis is a pure function of the input data and of the draws of
the seedable subsampling source: two runs whose samplers agree on every sample
exceeding 5000 values (in particular, two runs with the same random seed)
produce identical results.  The correlation path consumes no randomness at
all: `calculateCorrelations` takes no sampler. -/
theorem analyzeRq1_seed_deterministic (shapiroOracle : List ℚ → Option (ℚ × ℚ))
    (ttestRel wilcoxonTest : List ℚ → List ℚ → Option (ℚ × ℚ)) (s1 s2 : List ℚ → List ℚ)
    (df : List Row) (h : ∀ l : List ℚ, 5000 < l.length → s1 l = s2 l) :
    analyzeRq1 shapiroOracle s1 ttestRel wilcoxonTest df =
      analyzeRq1 shapiroOracle s2 ttestRel wilcoxonTest df := by
  unfold analyzeRq1
  simp only [testNormality_sampler_agree shapiroOracle s1 s2 h]

/-- Witness for C9: two samplers that differ on small lists but agree beyond
the 5000 cap give identical analysis results on a concrete dataset. -/
theorem analyzeRq1_seed_deterministic_witness :
    analyzeRq1 (fun _ => some (1, 1)) (fun l => l.take 5000) (fun _ _ => some (2, 1/100))
      (fun _ _ => some (3, 1/2))
      [⟨"o", "r1", "simple", "graphql", 10⟩, ⟨"o", "r1", "simple", "rest", 20⟩,
       ⟨"o", "r2", "simple", "graphql", 12⟩, ⟨"o", "r2", "simple", "rest", 22⟩] =
    analyzeRq1 (fun _ => some (1, 1)) (fun l => if 5000 < l.length then l.take 5000 else [])
      (fun _ _ => some (2, 1/100)) (fun _ _ => some (3, 1/2))
      [⟨"o", "r1", "simple", "graphql", 10⟩, ⟨"o", "r1", "simple", "rest", 20⟩,
       ⟨"o", "r2", "simple", "graphql", 12⟩, ⟨"o", "r2", "simple", "rest", 22⟩] :=
  analyzeRq1_seed_deterministic (fun _ => some (1, 1)) (fun _ _ => some (2, 1/100))
    (fun _ _ => some (3, 1/2)) (fun l => l.take 5000)
    (fun l => if 5000 < l.length then l.take 5000 else [])
    [⟨"o", "r1", "simple", "graphql", 10⟩, ⟨"o", "r1", "simple", "rest", 20⟩,
     ⟨"o", "r2", "simple", "graphql", 12⟩, ⟨"o", "r2", "simple", "rest", 22⟩]
    (fun l h5 => (if_pos h5).symm)

/-- Witness for C2 at the concrete pair (r, p) = (3/5, 1/100) with Spearman
values (1/5, 3/10) reported alongside. -/
theorem correlationInterpretation_matches_table_witness :
    correlationInterpretation (3/5) (1/100) (1/5) (3/10) =
      labelText (specTableLabel (3/5) (1/100)) :=
  (correlationInterpretation_matches_table (3/5) (1/100) (1/5) (3/10)).1
